import Mathlib

/-!
Shallow embedding of `src/go/engine/login_provisioned_device.go`
(the `LoginProvisionedDevice` engine: device identity validator `loadMe`,
login dispatcher `run`, and the entry point `Run`).

External collaborators (local config store, UPAK loader, login state
service, notification router, session record) are modelled as an
environment record `Env` of oracles; the side effects the engine performs
through them are recorded in an event trace.
-/

namespace LPD

/-- Go error values relevant to the engine: the package-level sentinel
errors `errNoConfig` and `errNoDevice`, the structured
`libkb.UserDeletedError`, and arbitrary other errors (network failures,
login failures, ...) represented by a message. -/
inductive Err where
  | errNoConfig
  | errNoDevice
  | userDeleted
  | other (msg : String)
deriving DecidableEq, Repr

/-- A local configuration entry (`libkb.UserConfig`) as the engine reads it:
`GetDeviceID` may be nil, modelled as `none`. -/
structure UserConfig where
  deviceID : Option String
deriving DecidableEq, Repr

/-- A signing device key entry of the authoritative record:
`revoked` models `Base.Revocation != nil`. -/
structure DeviceKey where
  id : String
  revoked : Bool
deriving DecidableEq, Repr

/-- The protocol status code `keybase1.StatusCode_SCDeleted`. -/
def SCDeleted : Nat := 216

/-- The authoritative user record (`upak.Current`) as the engine reads it:
account status code, uid, username, and the signing device key list. -/
structure UPAK where
  status : Nat
  uid : String
  username : String
  deviceKeys : List DeviceKey
deriving DecidableEq, Repr

/-- The argument built for `GetUPAKLoader().LoadV2`: the engine constructs it
`WithPublicKeyOptional().WithForcePoll(true)` and then either
`WithSelf(true)` or `WithName(username)`. -/
structure LoadUserArg where
  publicKeyOptional : Bool
  forcePoll : Bool
  self : Bool
  name : String
deriving DecidableEq, Repr

/-- Observable calls the engine makes on its collaborators, in order. -/
inductive Event where
  | getConfigSelf
  | getConfigFor (u : String)
  | loadV2Call (arg : LoadUserArg)
  | nukeConfig (u : String)
  | warn (msg : String)
  | loginStoredSecret (u : String)
  | loginPrompt (u : String)
  | setDeviceProvisioned (d : String)
  | notifyLogin (u : String)
  | callLoginHooks
deriving DecidableEq, Repr

/-- The engine's collaborators, as oracles fixed for one invocation:
session state query, local configuration store, UPAK loader, config
nuking, the two login-service operations, the session record write, and
the ambient environment values the engine reads. An oracle returning
`some e` / `Except.error e` models the corresponding Go call failing. -/
structure Env where
  isLoggedIn : Bool
  loggedInUID : String
  usernameForUID : String → String
  getUserConfigSelf : Except Err (Option UserConfig)
  getUserConfigFor : String → Except Err (Option UserConfig)
  loadV2 : LoadUserArg → Except Err UPAK
  nukeConfigErr : String → Option Err
  loginStoredSecretErr : String → Option Err
  loginPromptErr : String → Option Err
  setDeviceProvisionedErr : Option Err
  envDeviceID : String
  envUsername : String

/-- Modelled from the spec: username normalization
(`libkb.NewNormalizedUsername`, outside `src/`) — usernames are compared
after normalization; we model it as lower-casing. -/
def normalize (s : String) : String := String.mk (s.data.map Char.toLower)

/-- `NewLoginProvisionedDevice` stores the normalized requested username. -/
def NewLoginProvisionedDevice (username : String) : String := normalize username

/-- Modelled from the spec: the search of the authoritative record's device
list for an entry whose identifier matches the stored device identifier
(`FindSigningDeviceKey`, outside `src/`). -/
def findSigningDeviceKey (keys : List DeviceKey) (d : String) : Option DeviceKey :=
  keys.find? (fun k => k.id == d)

/-- The `LoadUserArg` that `loadMe` builds for a stored username `u`:
always public-key-optional and force-poll, then self when `u` is empty
and by-name otherwise. -/
def loadMeArg (u : String) : LoadUserArg :=
  if u.length == 0 then
    ⟨true, true, true, ""⟩
  else
    ⟨true, true, false, u⟩

/-- The local-configuration read `loadMe` performs: `GetUserConfig()` when
the stored username is empty, `GetUserConfigForUsername` otherwise. -/
def loadMeConfigRes (env : Env) (u : String) : Except Err (Option UserConfig) :=
  if u.length == 0 then env.getUserConfigSelf else env.getUserConfigFor u

/-- The trace of the local-configuration read of `loadMe`. -/
def loadMeT0 (u : String) : List Event :=
  if u.length == 0 then [Event.getConfigSelf] else [Event.getConfigFor u]

/-- Result of `loadMe`: the returned error (`none` = success), the value of
the engine's `username` field after the call, and the event trace. -/
structure LoadMeOut where
  result : Option Err
  username : String
  trace : List Event
deriving DecidableEq, Repr

/-- `LoginProvisionedDevice.loadMe` (source lines 67–134): resolve the
local configuration entry (self or by name), require a device ID, fetch
the authoritative record force-polled, fail on a deleted account, nuke
the local config and fail when the device is unknown or revoked, and on
success store the canonical username in the engine. -/
def loadMe (env : Env) (eUsername : String) : LoadMeOut :=
  let arg := loadMeArg eUsername
  let t0 := loadMeT0 eUsername
  match loadMeConfigRes env eUsername with
  | Except.error _ => ⟨some Err.errNoConfig, eUsername, t0⟩
  | Except.ok none => ⟨some Err.errNoConfig, eUsername, t0⟩
  | Except.ok (some config) =>
    match config.deviceID with
    | none => ⟨some Err.errNoDevice, eUsername, t0⟩
    | some deviceID =>
      let t1 := t0 ++ [Event.loadV2Call arg]
      match env.loadV2 arg with
      | Except.error e => ⟨some e, eUsername, t1⟩
      | Except.ok upak =>
        if upak.status == SCDeleted then
          ⟨some Err.userDeleted, eUsername, t1⟩
        else
          let nu := normalize upak.username
          let nukeDevice :=
            match findSigningDeviceKey upak.deviceKeys deviceID with
            | none => true
            | some device => device.revoked
          if nukeDevice then
            let t2 := t1 ++ [Event.nukeConfig nu]
            match env.nukeConfigErr nu with
            | some _ =>
              ⟨some Err.errNoDevice, eUsername, t2 ++ [Event.warn "Error clearing user config"]⟩
            | none => ⟨some Err.errNoDevice, eUsername, t2⟩
          else
            ⟨none, nu, t1⟩

/-- The `afterLogin` callback (source lines 155–161): attempt
`LocalSession().SetDeviceProvisioned(GetDeviceID())`; on failure only warn;
always return nil. Result is the callback's returned error and its trace. -/
def afterLogin (env : Env) : Option Err × List Event :=
  match env.setDeviceProvisionedErr with
  | some _ =>
    (none, [Event.setDeviceProvisioned env.envDeviceID, Event.warn "error saving session file"])
  | none => (none, [Event.setDeviceProvisioned env.envDeviceID])

/-- Modelled from the spec: `LoginState().LoginWithStoredSecret(m, u, cb)`
(outside `src/`) — performs the credential exchange and, on success,
invokes the post-login callback synchronously before returning; its error
is returned verbatim. -/
def loginWithStoredSecret (env : Env) (u : String)
    (cb : Env → Option Err × List Event) : Option Err × List Event :=
  match env.loginStoredSecretErr u with
  | some e => (some e, [Event.loginStoredSecret u])
  | none =>
    let c := cb env
    (c.1, Event.loginStoredSecret u :: c.2)

/-- Modelled from the spec: `LoginState().LoginWithPrompt(m, u, loginUI,
secretUI, cb)` (outside `src/`) — same contract as the stored-secret
operation, with the interactive prompt flow. -/
def loginWithPrompt (env : Env) (u : String)
    (cb : Env → Option Err × List Event) : Option Err × List Event :=
  match env.loginPromptErr u with
  | some e => (some e, [Event.loginPrompt u])
  | none =>
    let c := cb env
    (c.1, Event.loginPrompt u :: c.2)

/-- Result of `run` / `Run`: returned error (`none` = success), the
engine's `username` field afterwards, and the event trace. -/
structure RunOut where
  result : Option Err
  username : String
  trace : List Event
deriving DecidableEq, Repr

/-- The Go short-circuit condition of `run` (source line 141):
`in && (len(e.username) == 0 || GetUsernameForUID(uid).Eq(e.username))`. -/
def shortCircuit (env : Env) (eUsername : String) : Bool :=
  env.isLoggedIn && (eUsername.length == 0 || env.usernameForUID env.loggedInUID == eUsername)

/-- `LoginProvisionedDevice.run` (source lines 136–180): short-circuit when
already logged in as the requested user; call `loadMe`; NOTE the source
returns nil (success) when `loadMe` fails (line 148); otherwise delegate
to exactly one login mode selected by `SecretStoreOnly`, passing
`afterLogin`, and return its error verbatim. -/
def run (env : Env) (secretStoreOnly : Bool) (eUsername : String) : RunOut :=
  if shortCircuit env eUsername then
    ⟨none, eUsername, []⟩
  else
    let lm := loadMe env eUsername
    match lm.result with
    | some _ => ⟨none, lm.username, lm.trace⟩
    | none =>
      let login :=
        if secretStoreOnly then loginWithStoredSecret env lm.username afterLogin
        else loginWithPrompt env lm.username afterLogin
      match login.1 with
      | some e => ⟨some e, lm.username, lm.trace ++ login.2⟩
      | none => ⟨none, lm.username, lm.trace ++ login.2⟩

/-- `LoginProvisionedDevice.Run` (source lines 54–65): call `run`; on a
non-nil error return it; otherwise emit the login notification with
`Env.GetUsername()` and then call the login hooks, and return nil. -/
def Run (env : Env) (secretStoreOnly : Bool) (eUsername : String) : RunOut :=
  let r := run env secretStoreOnly eUsername
  match r.result with
  | some e => ⟨some e, r.username, r.trace⟩
  | none =>
    ⟨none, r.username, r.trace ++ [Event.notifyLogin env.envUsername, Event.callLoginHooks]⟩

/-- Is the event a login-delegation call (either mode)? -/
def isLoginEv : Event → Bool
  | Event.loginStoredSecret _ => true
  | Event.loginPrompt _ => true
  | _ => false

/-- Is the event a stored-secret login-delegation call? -/
def isStoredSecretEv : Event → Bool
  | Event.loginStoredSecret _ => true
  | _ => false

/-- Is the event an interactive-prompt login-delegation call? -/
def isPromptEv : Event → Bool
  | Event.loginPrompt _ => true
  | _ => false

/-- Is the event a login notification? -/
def isNotifyEv : Event → Bool
  | Event.notifyLogin _ => true
  | _ => false

/-- Is the event the login-hooks invocation? -/
def isHooksEv : Event → Bool
  | Event.callLoginHooks => true
  | _ => false

/-- Is the event a local-config nuke request? -/
def isNukeEv : Event → Bool
  | Event.nukeConfig _ => true
  | _ => false

/-- Is the event a UPAK-loader fetch? -/
def isLoadV2Ev : Event → Bool
  | Event.loadV2Call _ => true
  | _ => false

/-- Is the event the device-provisioned marker write attempt? -/
def isSetDevEv : Event → Bool
  | Event.setDeviceProvisioned _ => true
  | _ => false

/-- A valid authoritative record: active account, device "D1" unrevoked. -/
def upakValid : UPAK := ⟨0, "uid1", "Alice", [⟨"D1", false⟩]⟩

/-- A deleted-account record that still lists device "D9" unrevoked. -/
def upakDeleted : UPAK := ⟨SCDeleted, "uid2", "Carol", [⟨"D9", false⟩]⟩

/-- An active record whose only device "D2" carries a revocation marker. -/
def upakStale : UPAK := ⟨0, "uid3", "Dave", [⟨"D2", true⟩]⟩

/-- Environment: not logged in, config stores device "D1", the
authoritative record is `upakValid`, and every collaborator succeeds. -/
def envValid : Env :=
  ⟨false, "", fun _ => "", Except.ok (some ⟨some "D1"⟩),
   fun _ => Except.ok (some ⟨some "D1"⟩),
   fun _ => Except.ok upakValid,
   fun _ => none, fun _ => none, fun _ => none, none, "Denv", "alice"⟩

/-- Environment: the local configuration read fails. -/
def envNoConfigRead : Env :=
  ⟨false, "", fun _ => "", Except.error (Err.other "config read failed"),
   fun _ => Except.error (Err.other "config read failed"),
   fun _ => Except.error (Err.other "unused"),
   fun _ => none, fun _ => none, fun _ => none, none, "Denv", "alice"⟩

/-- Environment: a session is already logged in as "bob". -/
def envLoggedIn : Env :=
  ⟨true, "uid-bob", fun _ => "bob", Except.error (Err.other "unused"),
   fun _ => Except.error (Err.other "unused"),
   fun _ => Except.error (Err.other "unused"),
   fun _ => none, fun _ => none, fun _ => none, none, "Denv", "bob"⟩

/-- Environment: like `envValid` but both login-service operations fail. -/
def envLoginFail : Env :=
  ⟨false, "", fun _ => "", Except.ok (some ⟨some "D1"⟩),
   fun _ => Except.ok (some ⟨some "D1"⟩),
   fun _ => Except.ok upakValid,
   fun _ => none, fun _ => some (Err.other "login failed"),
   fun _ => some (Err.other "login failed"), none, "Denv", "alice"⟩

/-- Environment: like `envValid` but the provisioned-marker write fails. -/
def envMarkerFail : Env :=
  ⟨false, "", fun _ => "", Except.ok (some ⟨some "D1"⟩),
   fun _ => Except.ok (some ⟨some "D1"⟩),
   fun _ => Except.ok upakValid,
   fun _ => none, fun _ => none, fun _ => none,
   some (Err.other "disk full"), "Denv", "alice"⟩

/-- Environment: config stores device "D9", record is `upakDeleted`. -/
def envDeleted : Env :=
  ⟨false, "", fun _ => "", Except.ok (some ⟨some "D9"⟩),
   fun _ => Except.ok (some ⟨some "D9"⟩),
   fun _ => Except.ok upakDeleted,
   fun _ => none, fun _ => none, fun _ => none, none, "Denv", "x"⟩

/-- Environment: config stores device "D2", record is `upakStale`, and the
config-deletion request itself fails. -/
def envStale : Env :=
  ⟨false, "", fun _ => "", Except.ok (some ⟨some "D2"⟩),
   fun _ => Except.ok (some ⟨some "D2"⟩),
   fun _ => Except.ok upakStale,
   fun _ => some (Err.other "nuke failed"), fun _ => none, fun _ => none,
   none, "Denv", "x"⟩

/-- Environment: the config entry exists but stores no device identifier;
every remote oracle would fail if consulted. -/
def envNoDeviceID : Env :=
  ⟨false, "", fun _ => "", Except.ok (some ⟨none⟩),
   fun _ => Except.ok (some ⟨none⟩),
   fun _ => Except.error (Err.other "must not be called"),
   fun _ => none, fun _ => none, fun _ => none, none, "Denv", "x"⟩

/-- Environment: config stores device "D1" but the authoritative fetch
fails with a network error. -/
def envFetchFail : Env :=
  ⟨false, "", fun _ => "", Except.ok (some ⟨some "D1"⟩),
   fun _ => Except.ok (some ⟨some "D1"⟩),
   fun _ => Except.error (Err.other "network down"),
   fun _ => none, fun _ => none, fun _ => none, none, "Denv", "x"⟩

/-- A `loadMe` trace is the config read alone, or followed by the fetch,
optionally followed by a nuke request and its failure warning. -/
theorem loadMe_trace_cases (env : Env) (u : String) :
    (loadMe env u).trace = loadMeT0 u ∨
    (loadMe env u).trace = loadMeT0 u ++ [Event.loadV2Call (loadMeArg u)] ∨
    (∃ v, (loadMe env u).trace =
        loadMeT0 u ++ [Event.loadV2Call (loadMeArg u), Event.nukeConfig v]) ∨
    (∃ v, (loadMe env u).trace =
        loadMeT0 u ++ [Event.loadV2Call (loadMeArg u), Event.nukeConfig v,
          Event.warn "Error clearing user config"]) := by
  unfold loadMe
  dsimp only
  split
  · left; rfl
  · left; rfl
  · split
    · left; rfl
    · split
      · right; left; simp
      · split
        · right; left; simp
        · split
          · split
            · right; right; right
              simp
            · right; right; left
              simp
          · right; left; simp

/-- No event of a `loadMe` trace is a login delegation, a notification, a
hooks call, or a provisioned-marker write. -/
theorem loadMe_trace_no_login_phase (env : Env) (u : String) :
    ∀ ev ∈ (loadMe env u).trace,
      isLoginEv ev = false ∧ isNotifyEv ev = false ∧ isHooksEv ev = false ∧
        isSetDevEv ev = false := by
  intro ev hev
  rcases loadMe_trace_cases env u with h | h | ⟨v, h⟩ | ⟨v, h⟩ <;>
    rw [h] at hev <;>
    unfold loadMeT0 at hev <;>
    split at hev <;>
    simp only [List.mem_append, List.mem_cons, List.mem_singleton,
      List.not_mem_nil, or_false] at hev <;>
    (rcases hev with rfl | rfl | rfl | rfl) <;>
    simp [isLoginEv, isNotifyEv, isHooksEv, isSetDevEv]

/-- Either `loadMe` fails and leaves the engine's username unchanged, or it
succeeds and stores the normalized username of the fetched record. -/
theorem loadMe_dichotomy (env : Env) (u : String) :
    ((loadMe env u).result ≠ none ∧ (loadMe env u).username = u) ∨
    ((loadMe env u).result = none ∧
      ∃ upak, env.loadV2 (loadMeArg u) = Except.ok upak ∧
        (loadMe env u).username = normalize upak.username) := by
  unfold loadMe
  dsimp only
  split
  · left; exact ⟨by simp, rfl⟩
  · left; exact ⟨by simp, rfl⟩
  · split
    · left; exact ⟨by simp, rfl⟩
    · split
      · left; exact ⟨by simp, rfl⟩
      · split
        · left; exact ⟨by simp, rfl⟩
        · split
          · split
            · left; exact ⟨by simp, rfl⟩
            · left; exact ⟨by simp, rfl⟩
          · rename_i upak hequ hstat hnuke
            right
            exact ⟨rfl, upak, hequ, rfl⟩

/-- The config-read trace holds no nuke request. -/
theorem loadMeT0_not_mem_nuke (u v : String) : Event.nukeConfig v ∉ loadMeT0 u := by
  unfold loadMeT0; split <;> simp

/-- The config-read trace holds no fetch. -/
theorem loadMeT0_not_mem_loadV2 (u : String) (arg : LoadUserArg) :
    Event.loadV2Call arg ∉ loadMeT0 u := by
  unfold loadMeT0; split <;> simp

/-- The config-read trace holds no warning. -/
theorem loadMeT0_not_mem_warn (u msg : String) : Event.warn msg ∉ loadMeT0 u := by
  unfold loadMeT0; split <;> simp

/-- Nuke requests are counted as zero in the config-read trace. -/
theorem loadMeT0_count_nuke (u v : String) :
    (loadMeT0 u).count (Event.nukeConfig v) = 0 := by
  unfold loadMeT0; split <;> simp

/-- C3: for every validation in which the authoritative record is fetched
and reports account status deleted, `loadMe` returns the account-deleted
error, regardless of whether the stored device identifier appears (revoked
or not) in the record's device list, and no local-configuration deletion is
attempted. -/
theorem loadMe_account_deleted (env : Env) (u : String) (config : UserConfig)
    (d : String) (upak : UPAK)
    (hc : loadMeConfigRes env u = Except.ok (some config))
    (hd : config.deviceID = some d)
    (hl : env.loadV2 (loadMeArg u) = Except.ok upak)
    (hs : upak.status = SCDeleted) :
    (loadMe env u).result = some Err.userDeleted ∧
    ∀ v, Event.nukeConfig v ∉ (loadMe env u).trace := by
  unfold loadMe
  dsimp only
  rw [hc]
  dsimp only
  rw [hd]
  dsimp only
  rw [hl]
  dsimp only
  rw [if_pos (by simp [hs])]
  refine ⟨rfl, ?_⟩
  intro v
  unfold loadMeT0
  split <;> simp

/-- Witness for C3 at a concrete deleted-account record. -/
theorem loadMe_account_deleted_witness :
    (loadMe envDeleted "").result = some Err.userDeleted ∧
    Event.nukeConfig "carol" ∉ (loadMe envDeleted "").trace :=
  ⟨(loadMe_account_deleted envDeleted "" ⟨some "D9"⟩ "D9" upakDeleted
      rfl rfl rfl rfl).1,
   (loadMe_account_deleted envDeleted "" ⟨some "D9"⟩ "D9" upakDeleted
      rfl rfl rfl rfl).2 "carol"⟩

/-- C4: for every validation in which the stored device identifier is
absent from the fetched record's device list, or present with a revocation
marker, `loadMe` requests exactly one deletion of the local configuration
entry for the canonical username and returns the no-device error; a
failure of that deletion only produces a warning and does not change the
outcome. -/
theorem loadMe_stale_device_nuke (env : Env) (u : String) (config : UserConfig)
    (d : String) (upak : UPAK)
    (hc : loadMeConfigRes env u = Except.ok (some config))
    (hd : config.deviceID = some d)
    (hl : env.loadV2 (loadMeArg u) = Except.ok upak)
    (hs : upak.status ≠ SCDeleted)
    (hstale : findSigningDeviceKey upak.deviceKeys d = none ∨
      ∃ k, findSigningDeviceKey upak.deviceKeys d = some k ∧ k.revoked = true) :
    (loadMe env u).result = some Err.errNoDevice ∧
    (loadMe env u).trace.count (Event.nukeConfig (normalize upak.username)) = 1 ∧
    (∀ v, v ≠ normalize upak.username →
      Event.nukeConfig v ∉ (loadMe env u).trace) ∧
    (env.nukeConfigErr (normalize upak.username) ≠ none →
      Event.warn "Error clearing user config" ∈ (loadMe env u).trace) := by
  have hnuke : (match findSigningDeviceKey upak.deviceKeys d with
      | none => true
      | some device => device.revoked) = true := by
    rcases hstale with h | ⟨k, hk, hr⟩
    · rw [h]
    · rw [hk]; exact hr
  unfold loadMe
  dsimp only
  rw [hc]
  dsimp only
  rw [hd]
  dsimp only
  rw [hl]
  dsimp only
  rw [if_neg (by simp [hs]), if_pos hnuke]
  cases hn : env.nukeConfigErr (normalize upak.username)
  case none =>
    refine ⟨rfl, ?_, ?_, ?_⟩
    · dsimp only
      simp [List.count_append, loadMeT0_count_nuke]
    · intro v hne
      dsimp only
      simp [List.mem_append, loadMeT0_not_mem_nuke, hne]
    · intro h
      exact absurd rfl h
  case some e =>
    refine ⟨rfl, ?_, ?_, ?_⟩
    · dsimp only
      simp [List.count_append, loadMeT0_count_nuke]
    · intro v hne
      dsimp only
      simp [List.mem_append, loadMeT0_not_mem_nuke, hne]
    · intro _
      dsimp only
      simp

/-- Witness for C4 at a concrete revoked-device record with a failing
config deletion. -/
theorem loadMe_stale_device_nuke_witness :
    (loadMe envStale "").result = some Err.errNoDevice ∧
    (loadMe envStale "").trace.count (Event.nukeConfig (normalize upakStale.username)) = 1 ∧
    Event.warn "Error clearing user config" ∈ (loadMe envStale "").trace := by
  have h := loadMe_stale_device_nuke envStale "" ⟨some "D2"⟩ "D2" upakStale
    rfl rfl rfl (by decide) (Or.inr ⟨⟨"D2", true⟩, rfl, rfl⟩)
  exact ⟨h.1, h.2.1, h.2.2.2 (by decide)⟩

/-- C5: for every validation in which a local configuration entry is found
but its stored device identifier is absent, `loadMe` returns the no-device
error without fetching the authoritative record and without attempting any
local-configuration deletion. -/
theorem loadMe_missing_device_id (env : Env) (u : String) (config : UserConfig)
    (hc : loadMeConfigRes env u = Except.ok (some config))
    (hd : config.deviceID = none) :
    (loadMe env u).result = some Err.errNoDevice ∧
    (∀ arg, Event.loadV2Call arg ∉ (loadMe env u).trace) ∧
    (∀ v, Event.nukeConfig v ∉ (loadMe env u).trace) := by
  unfold loadMe
  dsimp only
  rw [hc]
  dsimp only
  rw [hd]
  dsimp only
  refine ⟨rfl, ?_, ?_⟩
  · intro arg
    exact loadMeT0_not_mem_loadV2 u arg
  · intro v
    exact loadMeT0_not_mem_nuke u v

/-- Witness for C5 at a concrete config entry with a nil device ID. -/
theorem loadMe_missing_device_id_witness :
    (loadMe envNoDeviceID "").result = some Err.errNoDevice ∧
    Event.loadV2Call (loadMeArg "") ∉ (loadMe envNoDeviceID "").trace ∧
    Event.nukeConfig "x" ∉ (loadMe envNoDeviceID "").trace := by
  have h := loadMe_missing_device_id envNoDeviceID "" ⟨none⟩ rfl rfl
  exact ⟨h.1, h.2.1 (loadMeArg ""), h.2.2 "x"⟩

/-- C6: every authoritative-record fetch of `loadMe` is performed with the
force-poll flag set, and a failing fetch is propagated verbatim as the
result, not mapped to a structured validation outcome. -/
theorem loadMe_force_poll_verbatim (env : Env) (u : String) :
    (∀ arg, Event.loadV2Call arg ∈ (loadMe env u).trace → arg.forcePoll = true) ∧
    (∀ config d e, loadMeConfigRes env u = Except.ok (some config) →
      config.deviceID = some d → env.loadV2 (loadMeArg u) = Except.error e →
      (loadMe env u).result = some e) := by
  constructor
  · intro arg harg
    have harg2 : arg = loadMeArg u := by
      rcases loadMe_trace_cases env u with h | h | ⟨v, h⟩ | ⟨v, h⟩ <;>
        rw [h] at harg <;>
        unfold loadMeT0 at harg <;>
        split at harg <;>
        simp at harg <;>
        tauto
    subst harg2
    unfold loadMeArg
    split <;> rfl
  · intro config d e hc hd he
    unfold loadMe
    dsimp only
    rw [hc]
    dsimp only
    rw [hd]
    dsimp only
    rw [he]

/-- Witness for C6: the concrete fetch is force-polled, and its network
error comes back verbatim. -/
theorem loadMe_force_poll_verbatim_witness :
    (loadMeArg "").forcePoll = true ∧
    (loadMe envFetchFail "").result = some (Err.other "network down") :=
  ⟨(loadMe_force_poll_verbatim envFetchFail "").1 (loadMeArg "") (by decide),
   (loadMe_force_poll_verbatim envFetchFail "").2 ⟨some "D1"⟩ "D1"
     (Err.other "network down") rfl rfl rfl⟩

/-- C10: `loadMe` mutates the engine's stored username only on success,
where it stores the canonical (normalized, authority-confirmed) username of
the fetched record; on every failure the field is unchanged. -/
theorem loadMe_username_frame (env : Env) (u : String) :
    ((loadMe env u).result ≠ none → (loadMe env u).username = u) ∧
    (∀ upak, env.loadV2 (loadMeArg u) = Except.ok upak →
      (loadMe env u).result = none →
      (loadMe env u).username = normalize upak.username) := by
  rcases loadMe_dichotomy env u with ⟨h1, h2⟩ | ⟨h1, upak, hequ, h2⟩
  · constructor
    · intro _; exact h2
    · intro upak hu hr; exact absurd hr h1
  · constructor
    · intro hne; exact absurd h1 hne
    · intro upak2 hequ2 _
      rw [hequ] at hequ2
      cases hequ2
      exact h2

/-- Witness for C10: unchanged username on a failed validation, canonical
username stored on a successful one. -/
theorem loadMe_username_frame_witness :
    (loadMe envFetchFail "zz").username = "zz" ∧
    (loadMe envValid "").username = normalize upakValid.username :=
  ⟨(loadMe_username_frame envFetchFail "zz").1 (by decide),
   (loadMe_username_frame envValid "").2 upakValid rfl (by decide)⟩

/-- A `loadMe` trace contains no login-delegation, notification, or hook
events, counted. -/
theorem loadMe_countP_login (env : Env) (u : String) :
    (loadMe env u).trace.countP isStoredSecretEv = 0 ∧
    (loadMe env u).trace.countP isPromptEv = 0 ∧
    (loadMe env u).trace.countP isNotifyEv = 0 ∧
    (loadMe env u).trace.countP isHooksEv = 0 := by
  refine ⟨?_, ?_, ?_, ?_⟩ <;>
    rw [List.countP_eq_zero] <;>
    intro ev hev <;>
    have h := loadMe_trace_no_login_phase env u ev hev <;>
    cases ev <;>
    simp_all [isLoginEv, isStoredSecretEv, isPromptEv, isNotifyEv, isHooksEv,
      isSetDevEv]

/-- The post-login callback always returns nil. -/
theorem afterLogin_result (env : Env) : (afterLogin env).1 = none := by
  unfold afterLogin; split <;> rfl

/-- The post-login callback's trace: the marker write attempt, alone or
followed by the failure warning. -/
theorem afterLogin_trace_cases (env : Env) :
    (afterLogin env).2 = [Event.setDeviceProvisioned env.envDeviceID] ∨
    (afterLogin env).2 = [Event.setDeviceProvisioned env.envDeviceID,
      Event.warn "error saving session file"] := by
  unfold afterLogin
  split
  · right; rfl
  · left; rfl

/-- The post-login callback always attempts the marker write. -/
theorem afterLogin_mem_setDev (env : Env) :
    Event.setDeviceProvisioned env.envDeviceID ∈ (afterLogin env).2 := by
  rcases afterLogin_trace_cases env with h | h <;> rw [h] <;> simp

/-- Past the short circuit with a valid device, `run` is `loadMe` followed
by the selected delegation, whose error becomes the result. -/
theorem run_delegation_trace (env : Env) (sso : Bool) (u : String)
    (hns : shortCircuit env u = false)
    (hv : (loadMe env u).result = none) :
    (run env sso u).trace =
      (loadMe env u).trace ++
        (if sso then loginWithStoredSecret env ((loadMe env u).username) afterLogin
         else loginWithPrompt env ((loadMe env u).username) afterLogin).2 ∧
    (run env sso u).result =
      (if sso then loginWithStoredSecret env ((loadMe env u).username) afterLogin
       else loginWithPrompt env ((loadMe env u).username) afterLogin).1 := by
  unfold run
  rw [if_neg (by simp [hns])]
  dsimp only
  rw [hv]
  dsimp only
  split
  · rename_i e heq
    exact ⟨rfl, heq.symm⟩
  · rename_i heq
    exact ⟨rfl, heq.symm⟩

/-- Stored-secret delegation records exactly one stored-secret call and no
prompt call. -/
theorem loginWithStoredSecret_countP (env : Env) (u : String) :
    (loginWithStoredSecret env u afterLogin).2.countP isStoredSecretEv = 1 ∧
    (loginWithStoredSecret env u afterLogin).2.countP isPromptEv = 0 := by
  unfold loginWithStoredSecret
  split
  · simp [isStoredSecretEv, isPromptEv]
  · rcases afterLogin_trace_cases env with h | h <;>
      dsimp only <;>
      simp [h, isStoredSecretEv, isPromptEv, List.countP_cons]

/-- Prompt delegation records exactly one prompt call and no stored-secret
call. -/
theorem loginWithPrompt_countP (env : Env) (u : String) :
    (loginWithPrompt env u afterLogin).2.countP isPromptEv = 1 ∧
    (loginWithPrompt env u afterLogin).2.countP isStoredSecretEv = 0 := by
  unfold loginWithPrompt
  split
  · simp [isStoredSecretEv, isPromptEv]
  · rcases afterLogin_trace_cases env with h | h <;>
      dsimp only <;>
      simp [h, isStoredSecretEv, isPromptEv, List.countP_cons]

/-- A failing stored-secret delegation returns its error verbatim. -/
theorem loginWithStoredSecret_err (env : Env) (u : String) (er : Err)
    (h : env.loginStoredSecretErr u = some er) :
    (loginWithStoredSecret env u afterLogin).1 = some er := by
  unfold loginWithStoredSecret
  rw [h]

/-- A failing prompt delegation returns its error verbatim. -/
theorem loginWithPrompt_err (env : Env) (u : String) (er : Err)
    (h : env.loginPromptErr u = some er) :
    (loginWithPrompt env u afterLogin).1 = some er := by
  unfold loginWithPrompt
  rw [h]

/-- A successful delegation returns nil and records the delegation call
followed by the callback trace. -/
theorem run_success_trace (env : Env) (sso : Bool) (u : String)
    (hns : shortCircuit env u = false)
    (hv : (loadMe env u).result = none)
    (hlog : (if sso then env.loginStoredSecretErr else env.loginPromptErr)
        ((loadMe env u).username) = none) :
    (run env sso u).result = none ∧
    (run env sso u).trace =
      (loadMe env u).trace ++
        ((if sso then Event.loginStoredSecret ((loadMe env u).username)
          else Event.loginPrompt ((loadMe env u).username)) ::
          (afterLogin env).2) := by
  cases sso
  case false =>
    obtain ⟨ht, hr⟩ := run_delegation_trace env false u hns hv
    rw [if_neg Bool.false_ne_true] at ht hr
    rw [if_neg Bool.false_ne_true] at hlog
    rw [if_neg Bool.false_ne_true]
    constructor
    · rw [hr]
      unfold loginWithPrompt
      rw [hlog]
      dsimp only
      exact afterLogin_result env
    · rw [ht]
      unfold loginWithPrompt
      rw [hlog]
  case true =>
    obtain ⟨ht, hr⟩ := run_delegation_trace env true u hns hv
    rw [if_pos rfl] at ht hr
    rw [if_pos rfl] at hlog
    rw [if_pos rfl]
    constructor
    · rw [hr]
      unfold loginWithStoredSecret
      rw [hlog]
      dsimp only
      exact afterLogin_result env
    · rw [ht]
      unfold loginWithStoredSecret
      rw [hlog]

/-- C7: for every invocation that reaches the login delegation, exactly one
of the two login modes is attempted — stored-secret when the
construction-time flag is set, interactive prompt otherwise — the other
mode is never attempted even on failure, and any delegation error is
returned verbatim. -/
theorem run_single_login_mode (env : Env) (sso : Bool) (u : String)
    (hns : shortCircuit env u = false)
    (hv : (loadMe env u).result = none) :
    ((run env sso u).trace.countP isStoredSecretEv = if sso then 1 else 0) ∧
    ((run env sso u).trace.countP isPromptEv = if sso then 0 else 1) ∧
    (∀ er, sso = true →
      env.loginStoredSecretErr ((loadMe env u).username) = some er →
      (run env sso u).result = some er) ∧
    (∀ er, sso = false →
      env.loginPromptErr ((loadMe env u).username) = some er →
      (run env sso u).result = some er) := by
  obtain ⟨hl0, hl1, _, _⟩ := loadMe_countP_login env u
  cases sso
  case false =>
    obtain ⟨ht, hr⟩ := run_delegation_trace env false u hns hv
    rw [if_neg Bool.false_ne_true] at ht hr
    rw [if_neg Bool.false_ne_true, if_neg Bool.false_ne_true]
    obtain ⟨hp1, hp0⟩ := loginWithPrompt_countP env ((loadMe env u).username)
    refine ⟨?_, ?_, ?_, ?_⟩
    · rw [ht, List.countP_append, hl0, hp0]
    · rw [ht, List.countP_append, hl1, hp1]
    · intro er hso _
      exact absurd hso (by simp)
    · intro er _ herr
      rw [hr]
      exact loginWithPrompt_err env ((loadMe env u).username) er herr
  case true =>
    obtain ⟨ht, hr⟩ := run_delegation_trace env true u hns hv
    rw [if_pos rfl] at ht hr
    rw [if_pos rfl, if_pos rfl]
    obtain ⟨hp1, hp0⟩ := loginWithStoredSecret_countP env ((loadMe env u).username)
    refine ⟨?_, ?_, ?_, ?_⟩
    · rw [ht, List.countP_append, hl0, hp1]
    · rw [ht, List.countP_append, hl1, hp0]
    · intro er _ herr
      rw [hr]
      exact loginWithStoredSecret_err env ((loadMe env u).username) er herr
    · intro er hso _
      exact absurd hso (by simp)

/-- Witness for C7: with the stored-secret flag set and a failing
stored-secret delegation, exactly one stored-secret call, no prompt call,
and the verbatim error. -/
theorem run_single_login_mode_witness :
    (run envLoginFail true "").trace.countP isStoredSecretEv = 1 ∧
    (run envLoginFail true "").trace.countP isPromptEv = 0 ∧
    (run envLoginFail true "").result = some (Err.other "login failed") := by
  have h := run_single_login_mode envLoginFail true "" (by decide) (by decide)
  exact ⟨h.1, h.2.1, h.2.2.1 (Err.other "login failed") rfl (by decide)⟩

/-- C8: for every successful credential exchange, the post-login callback
attempts to persist the device-provisioned marker; a failing write only
produces a warning, the callback still returns nil, and the overall
operation still succeeds. -/
theorem afterLogin_marker_nonfatal (env : Env) (sso : Bool) (u : String)
    (hns : shortCircuit env u = false)
    (hv : (loadMe env u).result = none)
    (hlog : (if sso then env.loginStoredSecretErr else env.loginPromptErr)
        ((loadMe env u).username) = none) :
    (afterLogin env).1 = none ∧
    (afterLogin env).2.countP isSetDevEv = 1 ∧
    (env.setDeviceProvisionedErr ≠ none →
      Event.warn "error saving session file" ∈ (afterLogin env).2) ∧
    (Run env sso u).result = none := by
  obtain ⟨hr, ht⟩ := run_success_trace env sso u hns hv hlog
  refine ⟨afterLogin_result env, ?_, ?_, ?_⟩
  · rcases afterLogin_trace_cases env with h | h <;>
      rw [h] <;> simp [isSetDevEv, List.countP_cons]
  · intro hne
    unfold afterLogin
    cases hm : env.setDeviceProvisionedErr
    case none => exact absurd hm hne
    case some e => simp
  · unfold Run
    dsimp only
    rw [hr]

/-- Witness for C8: a failing marker write at a concrete successful login
warns, while the callback and the operation still succeed. -/
theorem afterLogin_marker_nonfatal_witness :
    (afterLogin envMarkerFail).1 = none ∧
    Event.warn "error saving session file" ∈ (afterLogin envMarkerFail).2 ∧
    (Run envMarkerFail true "").result = none := by
  have h := afterLogin_marker_nonfatal envMarkerFail true "" (by decide)
    (by decide) (by decide)
  exact ⟨h.1, h.2.2.1 (by decide), h.2.2.2⟩

/-- C9: for every successful login, the login notification is emitted
exactly once and the login hooks are invoked exactly once, notification
immediately before hooks, both after the provisioned-marker write attempt,
whether or not that write succeeded; nothing after `run` can change the nil
result. -/
theorem Run_success_effects (env : Env) (sso : Bool) (u : String)
    (hns : shortCircuit env u = false)
    (hv : (loadMe env u).result = none)
    (hlog : (if sso then env.loginStoredSecretErr else env.loginPromptErr)
        ((loadMe env u).username) = none) :
    (Run env sso u).result = none ∧
    (Run env sso u).trace.countP isNotifyEv = 1 ∧
    (Run env sso u).trace.countP isHooksEv = 1 ∧
    ∃ pre, (Run env sso u).trace =
        pre ++ [Event.notifyLogin env.envUsername, Event.callLoginHooks] ∧
      Event.setDeviceProvisioned env.envDeviceID ∈ pre := by
  obtain ⟨hr, ht⟩ := run_success_trace env sso u hns hv hlog
  obtain ⟨_, _, hn0, hh0⟩ := loadMe_countP_login env u
  have hRt : (Run env sso u).trace =
      (run env sso u).trace ++
        [Event.notifyLogin env.envUsername, Event.callLoginHooks] := by
    unfold Run
    dsimp only
    rw [hr]
  have hRr : (Run env sso u).result = none := by
    unfold Run
    dsimp only
    rw [hr]
  have haft : (afterLogin env).2.countP isNotifyEv = 0 ∧
      (afterLogin env).2.countP isHooksEv = 0 := by
    rcases afterLogin_trace_cases env with h | h <;>
      rw [h] <;>
      simp [isNotifyEv, isHooksEv, List.countP_cons]
  refine ⟨hRr, ?_, ?_, ?_⟩
  · rw [hRt, List.countP_append, ht, List.countP_append, hn0,
      List.countP_cons, haft.1]
    cases sso <;> simp [isNotifyEv]
  · rw [hRt, List.countP_append, ht, List.countP_append, hh0,
      List.countP_cons, haft.2]
    cases sso <;> simp [isHooksEv]
  · refine ⟨(run env sso u).trace, hRt, ?_⟩
    rw [ht]
    have hm := afterLogin_mem_setDev env
    simp [List.mem_append]
    right
    right
    exact hm

/-- Witness for C9 at a concrete successful stored-secret login. -/
theorem Run_success_effects_witness :
    (Run envValid true "").result = none ∧
    (Run envValid true "").trace.countP isNotifyEv = 1 ∧
    (Run envValid true "").trace.countP isHooksEv = 1 ∧
    ∃ pre, (Run envValid true "").trace =
        pre ++ [Event.notifyLogin envValid.envUsername, Event.callLoginHooks] ∧
      Event.setDeviceProvisioned envValid.envDeviceID ∈ pre :=
  Run_success_effects envValid true "" (by decide) (by decide) (by decide)

/-- C1 (code bug, source line 148): when the validator fails with the
no-config outcome, the dispatcher returns nil — success, not the
structured failure the spec requires — performs no login delegation, and
the outer entry point even emits the login notification and hooks. -/
theorem run_swallows_validator_failure :
    (loadMe envNoConfigRead "").result = some Err.errNoConfig ∧
    (run envNoConfigRead false "").result = none ∧
    (run envNoConfigRead false "").trace.countP isLoginEv = 0 ∧
    (Run envNoConfigRead false "").result = none ∧
    Event.notifyLogin "alice" ∈ (Run envNoConfigRead false "").trace := by
  decide

/-- C2 counterexample: already logged in as "bob" with an empty requested
username, the operation short-circuits — yet the outer entry point still
emits the login notification and calls the login hooks. -/
theorem Run_short_circuit_emits_notification :
    shortCircuit envLoggedIn "" = true ∧
    (run envLoggedIn true "").trace = [] ∧
    Event.notifyLogin "bob" ∈ (Run envLoggedIn true "").trace ∧
    Event.callLoginHooks ∈ (Run envLoggedIn true "").trace := by
  decide

/-- C2 (amended): when already logged in as the requested (or empty)
username, the operation returns success with no identity-loader fetch, no
config read, and no login delegation — but the outer entry point still
emits the login notification and calls the login hooks once. -/
theorem Run_already_logged_in (env : Env) (sso : Bool) (ru : String)
    (hin : env.isLoggedIn = true)
    (hmatch : ru = "" ∨
      env.usernameForUID env.loggedInUID = NewLoginProvisionedDevice ru) :
    Run env sso (NewLoginProvisionedDevice ru) =
      ⟨none, NewLoginProvisionedDevice ru,
        [Event.notifyLogin env.envUsername, Event.callLoginHooks]⟩ := by
  have hsc : shortCircuit env (NewLoginProvisionedDevice ru) = true := by
    rcases hmatch with rfl | h
    · have h0 : NewLoginProvisionedDevice "" = "" := rfl
      rw [h0]
      have h1 : ("".length == 0) = true := rfl
      simp [shortCircuit, hin, h1]
    · simp [shortCircuit, hin, h]
  unfold Run run
  rw [if_pos hsc]
  rfl

/-- Witness for the amended C2 at a concrete logged-in session. -/
theorem Run_already_logged_in_witness :
    Run envLoggedIn true (NewLoginProvisionedDevice "") =
      ⟨none, NewLoginProvisionedDevice "",
        [Event.notifyLogin envLoggedIn.envUsername, Event.callLoginHooks]⟩ :=
  Run_already_logged_in envLoggedIn true "" rfl (Or.inl rfl)

end LPD
